import Mathlib

/-!
Shallow embedding of the desktop supervisor core
(`src/apps/desktop/src-tauri/src/lib.rs`): server start orchestration,
health-check polling with exponential backoff, and the keychain facade.
External effects (the OS mutexes, the TCP bind, the spawn, the HTTP
probes, the keyring backend) are modelled as explicit inputs, so every
function is a pure Lean translation of the corresponding Rust function.
-/

namespace WorldMirror

/-- Health check response from the local server (`struct HealthResponse`). -/
structure HealthResponse where
  ok : Bool
deriving DecidableEq, Repr

/-- Keychain operation result (`struct KeychainResult`). -/
structure KeychainResult where
  success : Bool
  value : Option String
  error : Option String
deriving DecidableEq, Repr

/-- The server process state (`struct ServerState`): the values behind the
two mutexes. -/
structure ServerState where
  port : Option Nat
  server_pid : Option Nat
deriving DecidableEq, Repr

/-- Outcome of a Rust call that can return normally, return an `Err`,
or unwind with a panic (`expect`). -/
inductive Outcome (α : Type) where
  | ok (a : α)
  | err (e : String)
  | panicked (msg : String)
deriving DecidableEq, Repr

/-- One HTTP probe of the health endpoint: either a network error
(`Err(_)` from `send()`), or a response with a status flag and an
optional decoded JSON body. -/
inductive HttpResult where
  | netErr
  | response (statusSuccess : Bool) (body : Option HealthResponse)
deriving DecidableEq, Repr

/-- Whether one probe counts as healthy in `wait_for_server`:
the request succeeded, the status is a success status, the body decodes
to `HealthResponse`, and its `ok` field is `true`.  Everything else falls
through to the retry. -/
def probeOk : HttpResult → Bool
  | HttpResult.netErr => false
  | HttpResult.response st body =>
      st && (match body with
             | some h => h.ok
             | none => false)

/-- The delay computed at the bottom of each loop iteration:
`200 * (1 << attempt.min(4))` milliseconds. -/
def backoffDelay (attempt : Nat) : Nat :=
  200 * (1 <<< min attempt 4)

/-- The retry loop of `wait_for_server`, starting at a given attempt
index with a given number of iterations left.  Returns the result,
the number of probes issued in total (counting from attempt 0), and the
total milliseconds slept inside the loop.  The sleep runs at the end of
every iteration whose probe failed, including the last one. -/
def waitFrom (responses : Nat → HttpResult) : Nat → Nat → Except Unit Unit × Nat × Nat
  | 0, attempt => (Except.error (), attempt, 0)
  | remaining + 1, attempt =>
      if probeOk (responses attempt) then
        (Except.ok (), attempt + 1, 0)
      else
        let r := waitFrom responses remaining (attempt + 1)
        (r.1, r.2.1, backoffDelay attempt + r.2.2)

/-- The error message built by `wait_for_server` when the attempts are
exhausted. -/
def timeoutMsg (max_retries : Nat) : String :=
  "Server did not become healthy after " ++ toString max_retries ++ " attempts"

/-- Model of `wait_for_server(port, max_retries)`: probe the health endpoint up to
`max_retries` times, sleeping `backoffDelay attempt` after each failed
probe.  The HTTP layer is supplied as `responses`, giving the probe
outcome for each attempt index.  Returns the `Result`, the number of
probes issued, and the total sleep time in milliseconds. -/
def wait_for_server (responses : Nat → HttpResult) (max_retries : Nat) :
    Except String Unit × Nat × Nat :=
  let r := waitFrom responses max_retries 0
  (r.1.mapError (fun _ => timeoutMsg max_retries), r.2.1, r.2.2)

/-- A health endpoint that always answers with a success status and body
`\x7b"ok": false\x7d`, as in the timeout scenario. -/
def alwaysNotOk : Nat → HttpResult :=
  fun _ => HttpResult.response true (some ⟨false⟩)

/-- A health endpoint that answers healthy from the first probe on. -/
def alwaysOk : Nat → HttpResult :=
  fun _ => HttpResult.response true (some ⟨true⟩)

/-- Model of `find_available_port()`: bind `127.0.0.1:0`, read the assigned port,
where both OS calls are `expect`ed — a failure of either unwinds with a
panic, it is never returned as an error value. -/
def find_available_port (bindResult : Except String Unit)
    (localAddrPort : Except String Nat) : Outcome Nat :=
  match bindResult with
  | Except.error _ => Outcome.panicked "Failed to bind to port"
  | Except.ok _ =>
      match localAddrPort with
      | Except.error _ => Outcome.panicked "Failed to get local addr"
      | Except.ok p => Outcome.ok p

/-- The environment a run of `start_server` interacts with: the outcomes
of the two mutex acquisitions, the TCP bind and local-address read, the
child spawn (yielding a pid), and the health endpoint's probe answers. -/
structure Env where
  portLock : Except String Unit
  bindResult : Except String Unit
  localAddrPort : Except String Nat
  spawnResult : Except String Nat
  pidLock : Except String Unit
  responses : Nat → HttpResult

/-- Model of `start_server` as a state transformer: given the environment and the
current `ServerState`, produce the command's outcome, the new state, and
the number of child processes spawned by this call (0 or 1).
Mirrors `src/lib.rs` lines 60–89: lock the port field; fast-return an
already-set port; otherwise allocate a port, spawn the child, record the
pid under the pid lock, await `wait_for_server(port, 20)`, and only on
health success write the port. -/
def start_server (env : Env) (s : ServerState) : Outcome Nat × ServerState × Nat :=
  match env.portLock with
  | Except.error e => (Outcome.err e, s, 0)
  | Except.ok _ =>
      match s.port with
      | some port => (Outcome.ok port, s, 0)
      | none =>
          match find_available_port env.bindResult env.localAddrPort with
          | Outcome.panicked m => (Outcome.panicked m, s, 0)
          | Outcome.err e => (Outcome.err e, s, 0)
          | Outcome.ok port =>
              match env.spawnResult with
              | Except.error e =>
                  (Outcome.err ("Failed to spawn server: " ++ e), s, 0)
              | Except.ok pid =>
                  match env.pidLock with
                  | Except.error e => (Outcome.err e, s, 1)
                  | Except.ok _ =>
                      match (wait_for_server env.responses 20).1 with
                      | Except.error e =>
                          (Outcome.err e, ⟨none, some pid⟩, 1)
                      | Except.ok _ =>
                          (Outcome.ok port, ⟨some port, some pid⟩, 1)

/-- Model of `get_server_port`: a non-blocking read of the port field;
a lock failure degrades to `None`. -/
def get_server_port (portLock : Except String Unit) (s : ServerState) : Option Nat :=
  match portLock with
  | Except.error _ => none
  | Except.ok _ => s.port

/-- The fresh state installed by `run()`: both fields `None`. -/
def initState : ServerState := ⟨none, none⟩

/-- An environment in which every external call succeeds and the service
becomes healthy at once. -/
def envHappy : Env :=
  ⟨Except.ok (), Except.ok (), Except.ok 4567, Except.ok 4242, Except.ok (), alwaysOk⟩

/-- Like `envHappy` but the health endpoint never reports ready. -/
def envFailHealth : Env :=
  ⟨Except.ok (), Except.ok (), Except.ok 4567, Except.ok 4242, Except.ok (), alwaysNotOk⟩

/-- An environment in which the OS refuses the ephemeral bind. -/
def envBindFail : Env :=
  ⟨Except.ok (), Except.error "Address not available", Except.ok 4567,
    Except.ok 4242, Except.ok (), alwaysOk⟩

/-! ### Lock/suspension event trace of `start_server`

To state claims about what happens inside or outside the critical
sections, the control flow of `start_server` is replayed as a list of
events.  `port_lock` is the guard from line 61; it lives to the end of
the function (it is dropped on every return path and during a panic
unwind).  The pid guard lives only for the inner block of lines 79–82.
The single suspension point of `start_server`'s own body is the
`wait_for_server(port, 20).await` on line 85. -/

/-- Events of one `start_server` execution. -/
inductive Ev where
  | acquirePortLock
  | releasePortLock
  | readPort
  | allocatePort
  | spawnChild
  | acquirePidLock
  | writePid
  | releasePidLock
  | awaitHealth
  | writePort
  | unwindPanic
deriving DecidableEq, Repr

/-- The event trace of `start_server env s`, following the same branch
structure as `start_server`. -/
def startServerTrace (env : Env) (s : ServerState) : List Ev :=
  match env.portLock with
  | Except.error _ => []
  | Except.ok _ =>
      Ev.acquirePortLock :: Ev.readPort ::
      match s.port with
      | some _ => [Ev.releasePortLock]
      | none =>
          match find_available_port env.bindResult env.localAddrPort with
          | Outcome.panicked _ => [Ev.releasePortLock, Ev.unwindPanic]
          | Outcome.err _ => [Ev.releasePortLock]
          | Outcome.ok _ =>
              Ev.allocatePort ::
              match env.spawnResult with
              | Except.error _ => [Ev.releasePortLock]
              | Except.ok _ =>
                  Ev.spawnChild ::
                  match env.pidLock with
                  | Except.error _ => [Ev.releasePortLock]
                  | Except.ok _ =>
                      Ev.acquirePidLock :: Ev.writePid :: Ev.releasePidLock ::
                      Ev.awaitHealth ::
                      match (wait_for_server env.responses 20).1 with
                      | Except.error _ => [Ev.releasePortLock]
                      | Except.ok _ => [Ev.writePort, Ev.releasePortLock]

/-- Holds (as `true`) iff some `awaitHealth` event occurs while the lock described
by the `acq`/`rel` events is held (`depth` counts currently-held
acquisitions). -/
def suspendedWhileHeld (acq rel : Ev) : List Ev → Nat → Bool
  | [], _ => false
  | e :: rest, depth =>
      if e = Ev.awaitHealth then
        decide (0 < depth) || suspendedWhileHeld acq rel rest depth
      else if e = acq then suspendedWhileHeld acq rel rest (depth + 1)
      else if e = rel then suspendedWhileHeld acq rel rest (depth - 1)
      else suspendedWhileHeld acq rel rest depth

/-- Holds (as `true`) iff every `awaitHealth` event occurs while the lock described
by the `acq`/`rel` events is held. -/
def suspendedOnlyWhileHeld (acq rel : Ev) : List Ev → Nat → Bool
  | [], _ => true
  | e :: rest, depth =>
      if e = Ev.awaitHealth then
        decide (0 < depth) && suspendedOnlyWhileHeld acq rel rest depth
      else if e = acq then suspendedOnlyWhileHeld acq rel rest (depth + 1)
      else if e = rel then suspendedOnlyWhileHeld acq rel rest (depth - 1)
      else suspendedOnlyWhileHeld acq rel rest depth

/-- Holds (as `true`) iff every `awaitHealth` event is preceded by a `writePid`
event (`seen` records whether a `writePid` was already passed). -/
def pidRecordedBeforeAwait : List Ev → Bool → Bool
  | [], _ => true
  | Ev.writePid :: rest, _ => pidRecordedBeforeAwait rest true
  | Ev.awaitHealth :: rest, seen => seen && pidRecordedBeforeAwait rest seen
  | _ :: rest, seen => pidRecordedBeforeAwait rest seen

/-- The finitely many traces `start_server` can produce, one per branch. -/
theorem startServerTrace_cases (env : Env) (s : ServerState) :
    startServerTrace env s = [] ∨
    startServerTrace env s = [Ev.acquirePortLock, Ev.readPort, Ev.releasePortLock] ∨
    startServerTrace env s =
      [Ev.acquirePortLock, Ev.readPort, Ev.releasePortLock, Ev.unwindPanic] ∨
    startServerTrace env s =
      [Ev.acquirePortLock, Ev.readPort, Ev.allocatePort, Ev.releasePortLock] ∨
    startServerTrace env s =
      [Ev.acquirePortLock, Ev.readPort, Ev.allocatePort, Ev.spawnChild,
        Ev.releasePortLock] ∨
    startServerTrace env s =
      [Ev.acquirePortLock, Ev.readPort, Ev.allocatePort, Ev.spawnChild,
        Ev.acquirePidLock, Ev.writePid, Ev.releasePidLock, Ev.awaitHealth,
        Ev.releasePortLock] ∨
    startServerTrace env s =
      [Ev.acquirePortLock, Ev.readPort, Ev.allocatePort, Ev.spawnChild,
        Ev.acquirePidLock, Ev.writePid, Ev.releasePidLock, Ev.awaitHealth,
        Ev.writePort, Ev.releasePortLock] := by
  rcases env with ⟨pl, br, la, sr, pidl, resp⟩
  rcases s with ⟨sp, spid⟩
  cases pl with
  | error e => left; rfl
  | ok u =>
    cases sp with
    | some p =>
        right; left; rfl
    | none =>
      cases br with
      | error e => right; right; left; rfl
      | ok u2 =>
        cases la with
        | error e => right; right; left; rfl
        | ok p =>
          cases sr with
          | error e => right; right; right; left; rfl
          | ok pid =>
            cases pidl with
            | error e => right; right; right; right; left; rfl
            | ok u3 =>
              cases hw : (wait_for_server resp 20).1 with
              | error e =>
                  right; right; right; right; right; left
                  simp [startServerTrace, find_available_port, hw]
              | ok u4 =>
                  right; right; right; right; right; right
                  simp [startServerTrace, find_available_port, hw]

/-- C1, as stated, is false: on the happy path from a fresh state the
health-check await happens while the port lock is held (the guard from
line 61 is only dropped when `start_server` returns). -/
theorem c1_counterexample :
    suspendedWhileHeld Ev.acquirePortLock Ev.releasePortLock
      (startServerTrace envHappy initState) 0 = true := by
  decide

/-- C1 (amended): in every execution of `start_server`, the port lock is
held at every suspension point (so the health-check wait happens inside
the port lock, not outside it); the pid lock is never held across a
suspension point; and the process id is recorded before the wait. -/
theorem c1_port_lock_held_across_await (env : Env) (s : ServerState) :
    suspendedOnlyWhileHeld Ev.acquirePortLock Ev.releasePortLock
      (startServerTrace env s) 0 = true ∧
    suspendedWhileHeld Ev.acquirePidLock Ev.releasePidLock
      (startServerTrace env s) 0 = false ∧
    pidRecordedBeforeAwait (startServerTrace env s) false = true := by
  rcases startServerTrace_cases env s with h | h | h | h | h | h | h <;>
    rw [h] <;> exact ⟨by decide, by decide, by decide⟩

/-- Helper: when every probe in range fails, `waitFrom` exhausts its
iterations, issuing one probe per iteration and sleeping the backoff
delay after every failed probe, the last included. -/
theorem waitFrom_all_fail (responses : Nat → HttpResult) (remaining : Nat) :
    ∀ attempt, (∀ i, i < remaining → probeOk (responses (attempt + i)) = false) →
      waitFrom responses remaining attempt =
        (Except.error (), attempt + remaining,
          Finset.sum (Finset.range remaining) (fun j => backoffDelay (attempt + j))) := by
  induction remaining with
  | zero =>
      intro attempt h
      simp [waitFrom]
  | succ n ih =>
      intro attempt h
      have h0 : probeOk (responses attempt) = false := by
        simpa using h 0 (Nat.succ_pos n)
      have hrec := ih (attempt + 1) (fun i hi => by
        have h2 := h (i + 1) (by omega)
        have h3 : attempt + (i + 1) = attempt + 1 + i := by omega
        rwa [h3] at h2)
      simp only [waitFrom, h0, Bool.false_eq_true, if_false, hrec]
      simp only [Prod.mk.injEq]
      refine ⟨trivial, by omega, ?_⟩
      rw [Finset.sum_range_succ']
      rw [Nat.add_comm]
      congr 1
      refine Finset.sum_congr rfl (fun j _ => ?_)
      congr 1
      omega

/-- C2, as stated, is false: with a health endpoint that always answers
`ok = false` and 3 attempts, the loop sleeps after every failed attempt,
the final one included, so the total delay is 200 + 400 + 800 = 1400ms,
not 600ms. -/
theorem c2_counterexample :
    (wait_for_server alwaysNotOk 3).2.2 = 1400 ∧
    (wait_for_server alwaysNotOk 3).2.2 ≠ 600 := by
  constructor
  · rfl
  · intro h
    simp [wait_for_server, waitFrom, alwaysNotOk, probeOk, backoffDelay] at h

/-- C2 (amended): when every probe reports not-ready, `wait_for_server`
fails after exactly `n` attempts with the timeout message, and the
backoff delay is applied after every attempt, the final one included:
the total delay is the sum of `backoffDelay i` over all `n` attempts
(for `n = 3`: 200 + 400 + 800 = 1400ms). -/
theorem c2_all_fail_total_delay (responses : Nat → HttpResult) (n : Nat)
    (h : ∀ i, i < n → probeOk (responses i) = false) :
    wait_for_server responses n =
      (Except.error (timeoutMsg n), n, Finset.sum (Finset.range n) backoffDelay) := by
  unfold wait_for_server
  rw [waitFrom_all_fail responses n 0 (fun i hi => by simpa using h i hi)]
  simp [Except.mapError]

/-- Witness for `c2_all_fail_total_delay` at the always-unhealthy
endpoint with 3 attempts. -/
theorem c2_all_fail_total_delay_witness :
    wait_for_server alwaysNotOk 3 =
      (Except.error (timeoutMsg 3), 3, Finset.sum (Finset.range 3) backoffDelay) :=
  c2_all_fail_total_delay alwaysNotOk 3 (fun _ _ => rfl)

/-- C3: after a successful first `start_server` from a fresh (port
unset) state — which spawned exactly one child — a second call with any
environment whose lock acquisition succeeds returns the same port,
leaves the state untouched, and spawns no new child, so exactly one
child is spawned across the two calls. -/
theorem c3_start_twice_idempotent (env env2 : Env) (s s1 : ServerState)
    (p n1 : Nat)
    (hfresh : s.port = none)
    (h1 : start_server env s = (Outcome.ok p, s1, n1))
    (h2 : env2.portLock = Except.ok ()) :
    start_server env2 s1 = (Outcome.ok p, s1, 0) ∧ n1 = 1 := by
  rcases env with ⟨pl, br, la, sr, pidl, resp⟩
  rcases s with ⟨sp, spid⟩
  simp only at hfresh
  subst hfresh
  cases pl with
  | error e => simp [start_server] at h1
  | ok u =>
    cases br with
    | error e => simp [start_server, find_available_port] at h1
    | ok u2 =>
      cases la with
      | error e => simp [start_server, find_available_port] at h1
      | ok q =>
        cases sr with
        | error e => simp [start_server, find_available_port] at h1
        | ok pid =>
          cases pidl with
          | error e => simp [start_server, find_available_port] at h1
          | ok u3 =>
            cases hw : (wait_for_server resp 20).1 with
            | error e => simp [start_server, find_available_port, hw] at h1
            | ok u4 =>
              simp only [start_server, find_available_port, hw, Prod.mk.injEq,
                Outcome.ok.injEq] at h1
              obtain ⟨hp, hs1, hn1⟩ := h1
              subst hp
              subst hs1
              refine ⟨?_, hn1.symm⟩
              rcases env2 with ⟨pl2, br2, la2, sr2, pidl2, resp2⟩
              simp only at h2
              subst h2
              simp [start_server]

/-- Witness for `c3_start_twice_idempotent`: a happy first start from
the fresh state, then a second call in the same environment. -/
theorem c3_start_twice_idempotent_witness :
    start_server envHappy ⟨some 4567, some 4242⟩ =
      (Outcome.ok 4567, ⟨some 4567, some 4242⟩, 0) ∧ (1 : Nat) = 1 :=
  c3_start_twice_idempotent envHappy envHappy initState
    ⟨some 4567, some 4242⟩ 4567 1 rfl rfl rfl

/-- C4: across every `start_server` transition, a set port is never
reset (and never changed), a set process id is never reset to unset,
and the port changes only when the health check reported success;
moreover a state with the pid set but the port still unset is reachable
(spawn succeeded, health failed). -/
theorem c4_state_invariant :
    (∀ env s p, s.port = some p → ((start_server env s).2.1).port = some p) ∧
    (∀ env s, s.server_pid ≠ none → ((start_server env s).2.1).server_pid ≠ none) ∧
    (∀ env s, ((start_server env s).2.1).port ≠ s.port →
      (wait_for_server env.responses 20).1 = Except.ok ()) ∧
    ((start_server envFailHealth initState).2.1).server_pid = some 4242 ∧
    ((start_server envFailHealth initState).2.1).port = none := by
  refine ⟨?_, ?_, ?_, ?_, ?_⟩
  · intro env s p hp
    rcases env with ⟨pl, br, la, sr, pidl, resp⟩
    cases pl with
    | error e => simp [start_server]; exact hp
    | ok u => simp [start_server, hp]
  · intro env s h
    rcases env with ⟨pl, br, la, sr, pidl, resp⟩
    rcases s with ⟨sp, spid⟩
    simp only at h
    cases pl with
    | error e => simpa [start_server] using h
    | ok u =>
      cases sp with
      | some p => simpa [start_server] using h
      | none =>
        cases br with
        | error e => simpa [start_server, find_available_port] using h
        | ok u2 =>
          cases la with
          | error e => simpa [start_server, find_available_port] using h
          | ok q =>
            cases sr with
            | error e => simpa [start_server, find_available_port] using h
            | ok pid =>
              cases pidl with
              | error e => simpa [start_server, find_available_port] using h
              | ok u3 =>
                cases hw : (wait_for_server resp 20).1 with
                | error e => simp [start_server, find_available_port, hw]
                | ok u4 => simp [start_server, find_available_port, hw]
  · intro env s h
    rcases env with ⟨pl, br, la, sr, pidl, resp⟩
    rcases s with ⟨sp, spid⟩
    cases pl with
    | error e => simp [start_server] at h
    | ok u =>
      cases sp with
      | some p => simp [start_server] at h
      | none =>
        cases br with
        | error e => simp [start_server, find_available_port] at h
        | ok u2 =>
          cases la with
          | error e => simp [start_server, find_available_port] at h
          | ok q =>
            cases sr with
            | error e => simp [start_server, find_available_port] at h
            | ok pid =>
              cases pidl with
              | error e => simp [start_server, find_available_port] at h
              | ok u3 =>
                cases hw : (wait_for_server resp 20).1 with
                | error e => simp [start_server, find_available_port, hw] at h
                | ok u4 => cases u4; rfl
  · rfl
  · rfl

/-- Witness for `c4_state_invariant`: a state whose port is already set
keeps it across a start call. -/
theorem c4_state_invariant_witness :
    ((start_server envHappy ⟨some 7, some 9⟩).2.1).port = some 7 :=
  c4_state_invariant.1 envHappy ⟨some 7, some 9⟩ 7 rfl

/-- C5: when the port is unset and allocation, spawn and pid recording
succeed but the health check times out, `start_server` returns exactly
the health-check error and leaves the port unset (only the pid is
recorded), so a later start retries the whole sequence. -/
theorem c5_health_failure_propagates (env : Env) (s : ServerState)
    (q pid : Nat) (e : String)
    (hport : s.port = none)
    (hpl : env.portLock = Except.ok ())
    (hbind : env.bindResult = Except.ok ())
    (hla : env.localAddrPort = Except.ok q)
    (hsp : env.spawnResult = Except.ok pid)
    (hpidl : env.pidLock = Except.ok ())
    (hw : (wait_for_server env.responses 20).1 = Except.error e) :
    start_server env s = (Outcome.err e, ⟨none, some pid⟩, 1) ∧
    ((start_server env s).2.1).port = none := by
  rcases env with ⟨pl, br, la, sr, pidl, resp⟩
  rcases s with ⟨sp, spid⟩
  simp only at hport hpl hbind hla hsp hpidl hw
  subst hport hpl hbind hla hsp hpidl
  constructor
  · simp [start_server, find_available_port, hw]
  · simp [start_server, find_available_port, hw]

/-- Witness for `c5_health_failure_propagates`: the always-unhealthy
environment from the fresh state. -/
theorem c5_health_failure_propagates_witness :
    start_server envFailHealth initState =
      (Outcome.err (timeoutMsg 20), ⟨none, some 4242⟩, 1) ∧
    ((start_server envFailHealth initState).2.1).port = none :=
  c5_health_failure_propagates envFailHealth initState 4567 4242
    (timeoutMsg 20) rfl rfl rfl rfl rfl rfl rfl

/-- C6: the retry delay for attempt `i` is `200 * 2 ^ min i 4`
milliseconds, which yields the sequence 200, 400, 800, 1600, 3200 and
stays at 3200 for every attempt index from 4 on. -/
theorem c6_backoff_formula (i : Nat) :
    backoffDelay i = 200 * 2 ^ min i 4 ∧
    (4 ≤ i → backoffDelay i = 3200) ∧
    [backoffDelay 0, backoffDelay 1, backoffDelay 2, backoffDelay 3,
      backoffDelay 4, backoffDelay 5, backoffDelay 6] =
      [200, 400, 800, 1600, 3200, 3200, 3200] := by
  refine ⟨?_, ?_, by decide⟩
  · simp [backoffDelay, Nat.shiftLeft_eq]
  · intro h
    simp [backoffDelay, Nat.shiftLeft_eq, Nat.min_eq_right h]

/-- Witness for `c6_backoff_formula` at attempt index 6. -/
theorem c6_backoff_formula_witness : backoffDelay 6 = 3200 :=
  (c6_backoff_formula 6).2.1 (by decide)

/-! ### Keychain facade (`keychain_set` / `keychain_get` / `keychain_delete`)

The keyring backend is modelled as the outcomes of the four operations
the code performs on an entry identified by `(entry name, account)`. -/

/-- Result of `entry.get_password()`: the stored value, the dedicated
`NoEntry` error, or any other keyring error. -/
inductive GetPasswordResult where
  | found (password : String)
  | noEntry
  | err (msg : String)
deriving DecidableEq, Repr

/-- Result of `entry.delete_credential()`: success, the dedicated
`NoEntry` error, or any other keyring error. -/
inductive DeleteResult where
  | ok
  | noEntry
  | err (msg : String)
deriving DecidableEq, Repr

/-- The keyring backend as observed by the three commands. -/
structure Keyring where
  newEntry : String → String → Except String Unit
  setPassword : String → String → String → Except String Unit
  getPassword : String → String → GetPasswordResult
  deleteCredential : String → String → DeleteResult

/-- The identifier built by all three commands:
`worldmirror.\x7bservice\x7d.\x7bkey\x7d`. -/
def entry_name (service key : String) : String :=
  "worldmirror." ++ service ++ "." ++ key

/-- The fixed account name passed to `keyring::Entry::new`. -/
def accountName : String := "worldmirror"

/-- Model of `keychain_set(service, key, value)`. -/
def keychain_set (kr : Keyring) (service key value : String) : KeychainResult :=
  match kr.newEntry (entry_name service key) accountName with
  | Except.ok _ =>
      match kr.setPassword (entry_name service key) accountName value with
      | Except.ok _ => ⟨true, none, none⟩
      | Except.error e =>
          ⟨false, none, some ("Failed to set keychain entry: " ++ e)⟩
  | Except.error e =>
      ⟨false, none, some ("Failed to create keychain entry: " ++ e)⟩

/-- Model of `keychain_get(service, key)`. -/
def keychain_get (kr : Keyring) (service key : String) : KeychainResult :=
  match kr.newEntry (entry_name service key) accountName with
  | Except.ok _ =>
      match kr.getPassword (entry_name service key) accountName with
      | GetPasswordResult.found password => ⟨true, some password, none⟩
      | GetPasswordResult.noEntry => ⟨true, none, none⟩
      | GetPasswordResult.err e =>
          ⟨false, none, some ("Failed to get keychain entry: " ++ e)⟩
  | Except.error e =>
      ⟨false, none, some ("Failed to create keychain entry: " ++ e)⟩

/-- Model of `keychain_delete(service, key)`. -/
def keychain_delete (kr : Keyring) (service key : String) : KeychainResult :=
  match kr.newEntry (entry_name service key) accountName with
  | Except.ok _ =>
      match kr.deleteCredential (entry_name service key) accountName with
      | DeleteResult.ok => ⟨true, none, none⟩
      | DeleteResult.noEntry => ⟨true, none, none⟩
      | DeleteResult.err e =>
          ⟨false, none, some ("Failed to delete keychain entry: " ++ e)⟩
  | Except.error e =>
      ⟨false, none, some ("Failed to create keychain entry: " ++ e)⟩

/-- A keyring backend with no stored entries and no operational
failures. -/
def krEmpty : Keyring :=
  ⟨fun _ _ => Except.ok (), fun _ _ _ => Except.ok (),
    fun _ _ => GetPasswordResult.noEntry, fun _ _ => DeleteResult.noEntry⟩

/-- C7: when entry creation succeeds and the backend reports no stored
entry for the service/key pair, `keychain_get` returns success with an
empty value and no error. -/
theorem c7_get_absent_is_success (kr : Keyring) (service key : String)
    (hnew : kr.newEntry (entry_name service key) accountName = Except.ok ())
    (hget : kr.getPassword (entry_name service key) accountName =
      GetPasswordResult.noEntry) :
    keychain_get kr service key = ⟨true, none, none⟩ := by
  simp [keychain_get, hnew, hget]

/-- Witness for `c7_get_absent_is_success` on the empty backend. -/
theorem c7_get_absent_is_success_witness :
    keychain_get krEmpty "sync" "token" = ⟨true, none, none⟩ :=
  c7_get_absent_is_success krEmpty "sync" "token" rfl rfl

/-- C8: when entry creation succeeds and the backend reports no stored
entry for the service/key pair, `keychain_delete` returns success:
deleting an absent entry is not an error. -/
theorem c8_delete_absent_is_success (kr : Keyring) (service key : String)
    (hnew : kr.newEntry (entry_name service key) accountName = Except.ok ())
    (hdel : kr.deleteCredential (entry_name service key) accountName =
      DeleteResult.noEntry) :
    keychain_delete kr service key = ⟨true, none, none⟩ := by
  simp [keychain_delete, hnew, hdel]

/-- Witness for `c8_delete_absent_is_success` on the empty backend. -/
theorem c8_delete_absent_is_success_witness :
    keychain_delete krEmpty "sync" "token" = ⟨true, none, none⟩ :=
  c8_delete_absent_is_success krEmpty "sync" "token" rfl rfl

/-- Well-formedness of a `KeychainResult`: success carries no error,
failure carries a non-empty error message and no value, and a value can
only accompany success. -/
def resultShapeOk (r : KeychainResult) : Prop :=
  (r.success = true → r.error = none) ∧
  (r.success = false → r.value = none ∧ ∃ m, r.error = some m ∧ 0 < m.length) ∧
  (r.value ≠ none → r.success = true)

/-- C10: every result of the three keychain commands is well-formed —
success with no error, or failure with a non-empty error message —
and only `keychain_get` can ever carry a value. -/
theorem c10_result_shape (kr : Keyring) (service key value : String) :
    resultShapeOk (keychain_set kr service key value) ∧
    resultShapeOk (keychain_get kr service key) ∧
    resultShapeOk (keychain_delete kr service key) ∧
    (keychain_set kr service key value).value = none ∧
    (keychain_delete kr service key).value = none := by
  refine ⟨?_, ?_, ?_, ?_, ?_⟩
  · cases hn : kr.newEntry (entry_name service key) accountName with
    | ok u =>
        cases hs : kr.setPassword (entry_name service key) accountName value with
        | ok u2 => simp [resultShapeOk, keychain_set, hn, hs]
        | error e =>
            simp [resultShapeOk, keychain_set, hn, hs]
            exact Or.inl (by decide)
    | error e =>
        simp [resultShapeOk, keychain_set, hn]
        exact Or.inl (by decide)
  · cases hn : kr.newEntry (entry_name service key) accountName with
    | ok u =>
        cases hg : kr.getPassword (entry_name service key) accountName with
        | found password => simp [resultShapeOk, keychain_get, hn, hg]
        | noEntry => simp [resultShapeOk, keychain_get, hn, hg]
        | err e =>
            simp [resultShapeOk, keychain_get, hn, hg]
            exact Or.inl (by decide)
    | error e =>
        simp [resultShapeOk, keychain_get, hn]
        exact Or.inl (by decide)
  · cases hn : kr.newEntry (entry_name service key) accountName with
    | ok u =>
        cases hd : kr.deleteCredential (entry_name service key) accountName with
        | ok => simp [resultShapeOk, keychain_delete, hn, hd]
        | noEntry => simp [resultShapeOk, keychain_delete, hn, hd]
        | err e =>
            simp [resultShapeOk, keychain_delete, hn, hd]
            exact Or.inl (by decide)
    | error e =>
        simp [resultShapeOk, keychain_delete, hn]
        exact Or.inl (by decide)
  · cases hn : kr.newEntry (entry_name service key) accountName with
    | ok u =>
        cases hs : kr.setPassword (entry_name service key) accountName value with
        | ok u2 => simp [keychain_set, hn, hs]
        | error e => simp [keychain_set, hn, hs]
    | error e => simp [keychain_set, hn]
  · cases hn : kr.newEntry (entry_name service key) accountName with
    | ok u =>
        cases hd : kr.deleteCredential (entry_name service key) accountName with
        | ok => simp [keychain_delete, hn, hd]
        | noEntry => simp [keychain_delete, hn, hd]
        | err e => simp [keychain_delete, hn, hd]
    | error e => simp [keychain_delete, hn]

/-- Witness for `c10_result_shape` on the empty backend. -/
theorem c10_result_shape_witness :
    (keychain_get krEmpty "sync" "token").error = none :=
  (c10_result_shape krEmpty "sync" "token" "abc123").2.1.1 rfl

/-- Whether an outcome is a structured (returned) error value, as
opposed to a normal return or a panic unwinding through the caller. -/
def isStructuredErr {α : Type} : Outcome α → Bool
  | Outcome.err _ => true
  | _ => false

/-- C9, as stated, is false: when the OS refuses the ephemeral bind,
`find_available_port`'s `expect` panics, so `start_server` ends in a
panic (an unhandled fault crossing the command boundary), not in a
structured error. -/
theorem c9_counterexample :
    (start_server envBindFail initState).1 =
      Outcome.panicked "Failed to bind to port" ∧
    isStructuredErr (start_server envBindFail initState).1 = false := by
  exact ⟨rfl, rfl⟩

/-- C9 (amended): when the OS refuses to bind an ephemeral port during
a start from an unset-port state, the operation ends in a panic with
message `Failed to bind to port` — an unhandled fault, not a structured
error — while the state is left unchanged and no child is spawned. -/
theorem c9_bind_failure_panics (env : Env) (s : ServerState) (e : String)
    (hpl : env.portLock = Except.ok ())
    (hport : s.port = none)
    (hbind : env.bindResult = Except.error e) :
    (start_server env s).1 = Outcome.panicked "Failed to bind to port" ∧
    isStructuredErr (start_server env s).1 = false ∧
    (start_server env s).2.1 = s ∧
    (start_server env s).2.2 = 0 := by
  rcases env with ⟨pl, br, la, sr, pidl, resp⟩
  rcases s with ⟨sp, spid⟩
  simp only at hpl hport hbind
  subst hpl hport hbind
  exact ⟨rfl, rfl, rfl, rfl⟩

/-- Witness for `c9_bind_failure_panics` in the bind-refusal
environment. -/
theorem c9_bind_failure_panics_witness :
    (start_server envBindFail initState).1 =
      Outcome.panicked "Failed to bind to port" ∧
    isStructuredErr (start_server envBindFail initState).1 = false ∧
    (start_server envBindFail initState).2.1 = initState ∧
    (start_server envBindFail initState).2.2 = 0 :=
  c9_bind_failure_panics envBindFail initState "Address not available"
    rfl rfl rfl

end WorldMirror
